import Mathlib

/-!
Shallow embedding of the alert subsystem of the DataOps-Monitoring backend.

Sources embedded:
- `backend/app/models/alert.py` — `AlertSeverity`, `AlertStatus`, `AlertRule`
  (`should_trigger`, the condition evaluators, `get_last_alert`), `Alert`
  (`acknowledge`, `resolve`, `get_duration_minutes`, `to_dict`), `AlertHistory`.
- `backend/app/api/alerts.py` — the `acknowledge_alert` and `resolve_alert`
  route handlers (their state guard plus the history row they append).

Modelling conventions:
- `datetime` values are rationals (seconds since an arbitrary epoch);
  `total_seconds() / 60` is exact rational division by 60.
- The JSON `conditions` and `context_data` dicts are records whose fields are
  `Option`-valued: `none` models an absent key, mirroring `'k' in d` /
  `d.get(k, default)` in the Python source.  Numeric JSON values are `Int`.
- The opaque `context_data` blob stored on an `Alert` is kept as an
  `Option String` payload: the claims only require that it is carried around
  unchanged.
- `datetime.isoformat()` is injective on timestamps, so the serialized
  timestamp fields of `to_dict` are modelled by the timestamp values
  themselves.
- Route handlers return `Except String α`: `.error` models the 400 response
  taken at the state guard (the spec's `InvalidStateError`), `.ok` the 200
  path together with the mutated alert and the appended history row.
-/

namespace DataOps

/-- Enumeration `AlertSeverity` from `models/alert.py`. -/
inductive AlertSeverity where
  | info
  | warning
  | critical
  | emergency
deriving DecidableEq, Repr

/-- The `.value` string tag of each severity, as declared in the Python enum. -/
def AlertSeverity.value : AlertSeverity → String
  | .info => "info"
  | .warning => "warning"
  | .critical => "critical"
  | .emergency => "emergency"

/-- Enumeration `AlertStatus` from `models/alert.py`. -/
inductive AlertStatus where
  | active
  | acknowledged
  | resolved
  | suppressed
deriving DecidableEq, Repr

/-- The `.value` string tag of each status, as declared in the Python enum. -/
def AlertStatus.value : AlertStatus → String
  | .active => "active"
  | .acknowledged => "acknowledged"
  | .resolved => "resolved"
  | .suppressed => "suppressed"

/-- The JSON `conditions` column of an `AlertRule`: the keys read by the
condition evaluators, `none` meaning the key is absent from the dict. -/
structure Conditions where
  status : Option String
  failure_count : Option Int
  duration_threshold : Option Int
  metric_threshold : Option Int
  operator : Option String
deriving DecidableEq, Repr

/-- The `context_data` dict handed to `should_trigger`: the keys read by the
condition evaluators, `none` meaning the key is absent from the dict. -/
structure ContextData where
  status : Option String
  failure_count : Option Int
  duration_seconds : Option Int
  metric_value : Option Int
deriving DecidableEq, Repr

/-- Row of the `alerts` table (`class Alert` in `models/alert.py`). -/
structure Alert where
  id : Int
  alert_rule_id : Int
  title : String
  message : String
  severity : AlertSeverity
  status : AlertStatus
  context_data : Option String
  source_type : Option String
  source_id : Option Int
  created_at : ℚ
  updated_at : ℚ
  acknowledged_at : Option ℚ
  resolved_at : Option ℚ
  acknowledged_by : Option Int
  resolved_by : Option Int
  organization_id : Int
  created_by : Int
  pipeline_id : Option Int
deriving DecidableEq, Repr

/-- Row of the `alert_history` table (`class AlertHistory`), restricted to the
fields the route handlers write. -/
structure AlertHistory where
  alert_id : Int
  action : String
  description : String
  created_by : Option Int
deriving DecidableEq, Repr

/-- Row of the `alert_rules` table (`class AlertRule`), restricted to the
fields `should_trigger` reads; `alerts` is the ORM relationship to the rule's
alerts.  `cooldown_minutes` is a nullable integer column, so `none` models
SQL NULL and Python `if self.cooldown_minutes:` is truthiness on
`none`/`some 0`/`some m`. -/
structure AlertRule where
  rule_type : String
  conditions : Conditions
  cooldown_minutes : Option Int
  is_active : Bool
  alerts : List Alert
deriving DecidableEq, Repr

/-- `AlertRule.get_last_alert`: `max(self.alerts, key=lambda x: x.created_at)`
on a non-empty list, `None` otherwise.  Python `max` keeps the first maximal
element when scanning left to right (a later element replaces the current one
only when strictly greater). -/
def AlertRule.get_last_alert (rule : AlertRule) : Option Alert :=
  match rule.alerts with
  | [] => none
  | a :: rest =>
      some (rest.foldl (fun best x => if best.created_at < x.created_at then x else best) a)

/-- `AlertRule._evaluate_pipeline_conditions`: early-`return False` checks on
`status`, `failure_count` and `duration_threshold`, then `return True`. -/
def AlertRule.evaluate_pipeline_conditions (rule : AlertRule) (context_data : ContextData) :
    Bool :=
  let conditions := rule.conditions
  -- Check pipeline status
  (match conditions.status with
   | none => true
   | some s => decide (context_data.status = some s)) &&
  -- Check failure count
  (match conditions.failure_count with
   | none => true
   | some n => !decide (context_data.failure_count.getD 0 < n)) &&
  -- Check duration threshold
  (match conditions.duration_threshold with
   | none => true
   | some t => !decide (context_data.duration_seconds.getD 0 < t))

/-- `AlertRule._evaluate_health_check_conditions`: the `status` check, then the
`metric_threshold` check whose `if/elif` chain compares with the operator
string (default `">"`); an operator matching no branch falls through to the
final `return True`. -/
def AlertRule.evaluate_health_check_conditions (rule : AlertRule) (context_data : ContextData) :
    Bool :=
  let conditions := rule.conditions
  -- Check health check status
  (match conditions.status with
   | none => true
   | some s => decide (context_data.status = some s)) &&
  -- Check metric thresholds
  (match conditions.metric_threshold with
   | none => true
   | some threshold =>
       let metric_value := context_data.metric_value.getD 0
       let op := conditions.operator.getD ">"
       if op = ">" ∧ metric_value ≤ threshold then false
       else if op = "<" ∧ metric_value ≥ threshold then false
       else if op = "==" ∧ metric_value ≠ threshold then false
       else true)

/-- `AlertRule._evaluate_custom_conditions`: the source stub returns `True`. -/
def AlertRule.evaluate_custom_conditions (_rule : AlertRule) (_context_data : ContextData) :
    Bool :=
  true

/-- The cooldown block of `should_trigger`: returns `true` exactly when the
early `return False` inside the `if self.cooldown_minutes:` block is taken,
i.e. the rule is suppressed because the most recent alert is too fresh.
`now` stands for `datetime.utcnow()`. -/
def AlertRule.cooldown_suppressed (rule : AlertRule) (now : ℚ) : Bool :=
  match rule.cooldown_minutes with
  | none => false
  | some m =>
      if m = 0 then false
      else
        match rule.get_last_alert with
        | none => false
        | some last_alert =>
            let time_since_last := (now - last_alert.created_at) / 60
            decide (time_since_last < (m : ℚ))

/-- `AlertRule.should_trigger`: the active-flag guard, the cooldown block, then
dispatch on `rule_type`; an unknown `rule_type` falls through to
`return False`. -/
def AlertRule.should_trigger (rule : AlertRule) (now : ℚ) (context_data : ContextData) :
    Bool :=
  if !rule.is_active then false
  else if rule.cooldown_suppressed now then false
  else if rule.rule_type = "pipeline_failure" then
    rule.evaluate_pipeline_conditions context_data
  else if rule.rule_type = "health_check" then
    rule.evaluate_health_check_conditions context_data
  else if rule.rule_type = "custom" then
    rule.evaluate_custom_conditions context_data
  else false

/-- `Alert.is_active`: `self.status == AlertStatus.ACTIVE`. -/
def Alert.is_active (a : Alert) : Bool :=
  a.status == AlertStatus.active

/-- `Alert.is_acknowledged`: `self.status == AlertStatus.ACKNOWLEDGED`. -/
def Alert.is_acknowledged (a : Alert) : Bool :=
  a.status == AlertStatus.acknowledged

/-- `Alert.is_resolved`: `self.status == AlertStatus.RESOLVED`. -/
def Alert.is_resolved (a : Alert) : Bool :=
  a.status == AlertStatus.resolved

/-- `Alert.acknowledge(user_id)`; `now` stands for `datetime.utcnow()`. -/
def Alert.acknowledge (a : Alert) (user_id : Int) (now : ℚ) : Alert :=
  { a with
    status := AlertStatus.acknowledged
    acknowledged_at := some now
    acknowledged_by := some user_id
    updated_at := now }

/-- `Alert.resolve(user_id)`; `now` stands for `datetime.utcnow()`. -/
def Alert.resolve (a : Alert) (user_id : Int) (now : ℚ) : Alert :=
  { a with
    status := AlertStatus.resolved
    resolved_at := some now
    resolved_by := some user_id
    updated_at := now }

/-- `Alert.get_duration_minutes`; `now` stands for `datetime.utcnow()` in the
final branch. -/
def Alert.get_duration_minutes (a : Alert) (now : ℚ) : ℚ :=
  if a.is_resolved ∧ a.resolved_at.isSome then
    (a.resolved_at.getD 0 - a.created_at) / 60
  else if a.is_acknowledged ∧ a.acknowledged_at.isSome then
    (a.acknowledged_at.getD 0 - a.created_at) / 60
  else
    (now - a.created_at) / 60

/-- The flat key/value dictionary produced by `Alert.to_dict`, one field per
key of the returned dict. -/
structure AlertDict where
  id : Int
  alert_rule_id : Int
  title : String
  message : String
  severity : String
  status : String
  context_data : Option String
  source_type : Option String
  source_id : Option Int
  organization_id : Int
  created_by : Int
  pipeline_id : Option Int
  is_active : Bool
  is_acknowledged : Bool
  is_resolved : Bool
  duration_minutes : ℚ
  created_at : ℚ
  updated_at : ℚ
  acknowledged_at : Option ℚ
  resolved_at : Option ℚ
  acknowledged_by : Option Int
  resolved_by : Option Int
deriving DecidableEq, Repr

/-- `Alert.to_dict`; `now` stands for the `datetime.utcnow()` that
`get_duration_minutes` may read. -/
def Alert.to_dict (a : Alert) (now : ℚ) : AlertDict :=
  { id := a.id
    alert_rule_id := a.alert_rule_id
    title := a.title
    message := a.message
    severity := a.severity.value
    status := a.status.value
    context_data := a.context_data
    source_type := a.source_type
    source_id := a.source_id
    organization_id := a.organization_id
    created_by := a.created_by
    pipeline_id := a.pipeline_id
    is_active := a.is_active
    is_acknowledged := a.is_acknowledged
    is_resolved := a.is_resolved
    duration_minutes := a.get_duration_minutes now
    created_at := a.created_at
    updated_at := a.updated_at
    acknowledged_at := a.acknowledged_at
    resolved_at := a.resolved_at
    acknowledged_by := a.acknowledged_by
    resolved_by := a.resolved_by }

/-- Modelled from the spec: parsing a severity back from its lowercase string
tag, "rejecting unknown tags" (§9); the source has no deserializer. -/
def AlertSeverity.ofValue (s : String) : Option AlertSeverity :=
  if s = "info" then some .info
  else if s = "warning" then some .warning
  else if s = "critical" then some .critical
  else if s = "emergency" then some .emergency
  else none

/-- Modelled from the spec: parsing a status back from its lowercase string
tag, "rejecting unknown tags" (§9); the source has no deserializer. -/
def AlertStatus.ofValue (s : String) : Option AlertStatus :=
  if s = "active" then some .active
  else if s = "acknowledged" then some .acknowledged
  else if s = "resolved" then some .resolved
  else if s = "suppressed" then some .suppressed
  else none

/-- Modelled from the spec: deserializing an `Alert` from its flat
representation (§8 round-trip); the source has no deserializer.  Stored fields
are read back, the enums are parsed from their lowercase tags, and the derived
fields (`is_active`, `is_acknowledged`, `is_resolved`, `duration_minutes`) are
dropped, to be recomputed from the stored state. -/
def Alert.from_dict (d : AlertDict) : Option Alert :=
  match AlertSeverity.ofValue d.severity, AlertStatus.ofValue d.status with
  | some sev, some st =>
      some
        { id := d.id
          alert_rule_id := d.alert_rule_id
          title := d.title
          message := d.message
          severity := sev
          status := st
          context_data := d.context_data
          source_type := d.source_type
          source_id := d.source_id
          created_at := d.created_at
          updated_at := d.updated_at
          acknowledged_at := d.acknowledged_at
          resolved_at := d.resolved_at
          acknowledged_by := d.acknowledged_by
          resolved_by := d.resolved_by
          organization_id := d.organization_id
          created_by := d.created_by
          pipeline_id := d.pipeline_id }
  | _, _ => none

/-- The `acknowledge_alert` route handler of `api/alerts.py`, after the tenant
lookup succeeded: the `is_acknowledged` guard (400 response, modelled as
`.error`), then `alert.acknowledge(user.id)` and the appended
`AlertHistory(action='acknowledged', ...)` row. -/
def acknowledge_alert (alert : Alert) (user_id : Int) (username : String) (now : ℚ) :
    Except String (Alert × AlertHistory) :=
  if alert.is_acknowledged then
    .error "Alert is already acknowledged"
  else
    .ok (alert.acknowledge user_id now,
      { alert_id := alert.id
        action := "acknowledged"
        description := "Alert acknowledged by " ++ username
        created_by := some user_id })

/-- The `resolve_alert` route handler of `api/alerts.py`, after the tenant
lookup succeeded: the `is_resolved` guard (400 response, modelled as
`.error`), then `alert.resolve(user.id)` and the appended
`AlertHistory(action='resolved', ...)` row. -/
def resolve_alert (alert : Alert) (user_id : Int) (username : String) (now : ℚ) :
    Except String (Alert × AlertHistory) :=
  if alert.is_resolved then
    .error "Alert is already resolved"
  else
    .ok (alert.resolve user_id now,
      { alert_id := alert.id
        action := "resolved"
        description := "Alert resolved by " ++ username
        created_by := some user_id })

/-! Concrete sample values used by witnesses and concrete evaluations. -/

/-- A conditions dict with no keys set. -/
def emptyConditions : Conditions :=
  { status := none
    failure_count := none
    duration_threshold := none
    metric_threshold := none
    operator := none }

/-- A context dict with no keys set. -/
def emptyContext : ContextData :=
  { status := none
    failure_count := none
    duration_seconds := none
    metric_value := none }

/-- A sample alert in the initial `ACTIVE` status, created at time 0. -/
def sampleAlert : Alert :=
  { id := 1
    alert_rule_id := 1
    title := "cpu high"
    message := "cpu above threshold"
    severity := AlertSeverity.critical
    status := AlertStatus.active
    context_data := some "{}"
    source_type := some "health_check"
    source_id := some 5
    created_at := 0
    updated_at := 0
    acknowledged_at := none
    resolved_at := none
    acknowledged_by := none
    resolved_by := none
    organization_id := 1
    created_by := 2
    pipeline_id := none }

/-- A sample rule with a 60-minute cooldown and one prior alert (created at
time 0). -/
def cooldownRule : AlertRule :=
  { rule_type := "custom"
    conditions := emptyConditions
    cooldown_minutes := some 60
    is_active := true
    alerts := [sampleAlert] }

/-- The sample cooldown rule with its active flag cleared. -/
def inactiveRule : AlertRule :=
  { cooldownRule with is_active := false }

/-- A `health_check` rule whose `operator` string is the unsupported `">="`. -/
def unsupportedOpRule : AlertRule :=
  { rule_type := "health_check"
    conditions :=
      { status := none
        failure_count := none
        duration_threshold := none
        metric_threshold := some 90
        operator := some ">=" }
    cooldown_minutes := some 0
    is_active := true
    alerts := [] }

/-- A context whose metric value 10 is far below the threshold 90. -/
def lowMetricContext : ContextData :=
  { status := none
    failure_count := none
    duration_seconds := none
    metric_value := some 10 }

/-! Claim theorems. -/

/-- C9: a rule whose `is_active` flag is false never triggers — `should_trigger`
returns false for every clock value and every context, regardless of rule
type, conditions, cooldown configuration or prior alerts. -/
theorem inactive_rule_never_triggers (rule : AlertRule) (now : ℚ) (ctx : ContextData)
    (h : rule.is_active = false) :
    rule.should_trigger now ctx = false := by
  simp [AlertRule.should_trigger, h]

/-- Witness for C9: the concrete inactive rule does not trigger. -/
theorem inactive_rule_never_triggers_witness :
    inactiveRule.is_active = false ∧ inactiveRule.should_trigger 0 emptyContext = false :=
  ⟨rfl, inactive_rule_never_triggers inactiveRule 0 emptyContext rfl⟩

/-- C10: `Alert.acknowledge` modifies only `status`, `acknowledged_at`,
`acknowledged_by` and `updated_at`; every other field of the alert is
unchanged. -/
theorem acknowledge_frame (a : Alert) (uid : Int) (now : ℚ) :
    (a.acknowledge uid now).id = a.id ∧
    (a.acknowledge uid now).alert_rule_id = a.alert_rule_id ∧
    (a.acknowledge uid now).title = a.title ∧
    (a.acknowledge uid now).message = a.message ∧
    (a.acknowledge uid now).severity = a.severity ∧
    (a.acknowledge uid now).context_data = a.context_data ∧
    (a.acknowledge uid now).source_type = a.source_type ∧
    (a.acknowledge uid now).source_id = a.source_id ∧
    (a.acknowledge uid now).created_at = a.created_at ∧
    (a.acknowledge uid now).resolved_at = a.resolved_at ∧
    (a.acknowledge uid now).resolved_by = a.resolved_by ∧
    (a.acknowledge uid now).organization_id = a.organization_id ∧
    (a.acknowledge uid now).created_by = a.created_by ∧
    (a.acknowledge uid now).pipeline_id = a.pipeline_id ∧
    (a.acknowledge uid now).status = AlertStatus.acknowledged ∧
    (a.acknowledge uid now).acknowledged_at = some now ∧
    (a.acknowledge uid now).acknowledged_by = some uid ∧
    (a.acknowledge uid now).updated_at = now :=
  ⟨rfl, rfl, rfl, rfl, rfl, rfl, rfl, rfl, rfl, rfl, rfl, rfl, rfl, rfl, rfl, rfl, rfl, rfl⟩

/-- C1 (code bug): on an `ACTIVE` alert, `resolve_alert` succeeds, and a
subsequent `acknowledge_alert` on the now-`RESOLVED` alert also succeeds —
the handler's guard only rejects alerts that are already `ACKNOWLEDGED` — so
the resolved alert is moved back to `ACKNOWLEDGED` (its `resolved_at` still
set) instead of the call failing. -/
theorem acknowledge_after_resolve_succeeds :
    resolve_alert sampleAlert 7 "alice" 600 =
      Except.ok (sampleAlert.resolve 7 600,
        { alert_id := 1
          action := "resolved"
          description := "Alert resolved by alice"
          created_by := some 7 }) ∧
    acknowledge_alert (sampleAlert.resolve 7 600) 8 "bob" 720 =
      Except.ok ((sampleAlert.resolve 7 600).acknowledge 8 720,
        { alert_id := 1
          action := "acknowledged"
          description := "Alert acknowledged by bob"
          created_by := some 8 }) ∧
    ((sampleAlert.resolve 7 600).acknowledge 8 720).status = AlertStatus.acknowledged ∧
    ((sampleAlert.resolve 7 600).acknowledge 8 720).resolved_at = some 600 := by
  refine ⟨rfl, rfl, rfl, rfl⟩

/-- C3 (code bug): a `health_check` rule with `metric_threshold` 90 and the
unsupported operator string `">="` evaluates to true on a context whose
metric value is only 10 — the `if/elif` chain matches no branch and falls
through to `return True`, silently treating the metric sub-check as
satisfied; the whole rule fires via `should_trigger`. -/
theorem unsupported_operator_treated_as_satisfied :
    unsupportedOpRule.evaluate_health_check_conditions lowMetricContext = true ∧
    unsupportedOpRule.should_trigger 0 lowMetricContext = true := by
  refine ⟨rfl, rfl⟩

/-- C4: `pipeline_failure` condition evaluation is the AND of the checks
present in the conditions dict — exact `status` equality, `failure_count`
(context default 0) at least the configured count, `duration_seconds`
(context default 0) at least the configured threshold — and a key absent from
the conditions dict is vacuously true for its check. -/
theorem evaluate_pipeline_conditions_iff (rule : AlertRule) (ctx : ContextData) :
    rule.evaluate_pipeline_conditions ctx = true ↔
      ((∀ s, rule.conditions.status = some s → ctx.status = some s) ∧
       (∀ n, rule.conditions.failure_count = some n → n ≤ ctx.failure_count.getD 0) ∧
       (∀ t, rule.conditions.duration_threshold = some t →
         t ≤ ctx.duration_seconds.getD 0)) := by
  unfold AlertRule.evaluate_pipeline_conditions
  rcases h1 : rule.conditions.status with _ | s <;>
    rcases h2 : rule.conditions.failure_count with _ | n <;>
      rcases h3 : rule.conditions.duration_threshold with _ | t <;>
        simp [h1, h2, h3, Int.not_lt, and_assoc]

/-- Witness for C4: the worked example of the spec — conditions
`{status: "failed", failure_count: 3}`, context `{status: "failed",
failure_count: 5}` — evaluates to true, and the empty conditions dict
evaluates to true on the empty context. -/
theorem evaluate_pipeline_conditions_iff_witness :
    ({ rule_type := "pipeline_failure"
       conditions :=
         { status := some "failed"
           failure_count := some 3
           duration_threshold := none
           metric_threshold := none
           operator := none }
       cooldown_minutes := none
       is_active := true
       alerts := [] } : AlertRule).evaluate_pipeline_conditions
      { status := some "failed"
        failure_count := some 5
        duration_seconds := none
        metric_value := none } = true ∧
    ({ rule_type := "pipeline_failure"
       conditions := emptyConditions
       cooldown_minutes := none
       is_active := true
       alerts := [] } : AlertRule).evaluate_pipeline_conditions emptyContext = true := by
  constructor
  · exact (evaluate_pipeline_conditions_iff _ _).mpr (by simp)
  · exact (evaluate_pipeline_conditions_iff _ _).mpr (by simp [emptyConditions])

/-- C7: for an alert whose status is still `ACTIVE`, the derived duration is
`(now − created_at) / 60` minutes, hence monotonically non-decreasing as the
clock advances. -/
theorem active_duration_monotone (a : Alert) (now1 now2 : ℚ)
    (hstatus : a.status = AlertStatus.active) (h1 : a.created_at ≤ now1)
    (h12 : now1 ≤ now2) :
    a.get_duration_minutes now1 ≤ a.get_duration_minutes now2 ∧
    a.get_duration_minutes now1 = (now1 - a.created_at) / 60 := by
  unfold Alert.get_duration_minutes
  simp [Alert.is_resolved, Alert.is_acknowledged, hstatus]
  linarith

/-- Witness for C7: the sample active alert, created at 0, has non-decreasing
duration between the instants 60 and 120. -/
theorem active_duration_monotone_witness :
    sampleAlert.get_duration_minutes 60 ≤ sampleAlert.get_duration_minutes 120 ∧
    sampleAlert.get_duration_minutes 60 = (60 - sampleAlert.created_at) / 60 :=
  active_duration_monotone sampleAlert 60 120 rfl (by norm_num [sampleAlert]) (by norm_num)

/-- C8: serializing an `Alert` with `to_dict` and deserializing back preserves
every stored field (severity and status travelling as their lowercase string
tags), while the derived fields are recomputed consistently from the stored
state: `is_active` is true iff the stored status is `active`, and
`duration_minutes` is exactly `get_duration_minutes`. -/
theorem alert_round_trip (a : Alert) (now : ℚ) :
    Alert.from_dict (a.to_dict now) = some a ∧
    (a.to_dict now).is_active = decide (a.status = AlertStatus.active) ∧
    (a.to_dict now).is_acknowledged = decide (a.status = AlertStatus.acknowledged) ∧
    (a.to_dict now).is_resolved = decide (a.status = AlertStatus.resolved) ∧
    (a.to_dict now).duration_minutes = a.get_duration_minutes now ∧
    (a.to_dict now).severity = a.severity.value ∧
    (a.to_dict now).status = a.status.value := by
  obtain ⟨i, ar, ti, me, sev, st, cd, sty, sid, ca, ua, aa, ra, ab, rb, org, cb, pid⟩ := a
  cases sev <;> cases st <;> exact ⟨rfl, rfl, rfl, rfl, rfl, rfl, rfl⟩

/-- Witness for C8: the round trip on the concrete sample alert. -/
theorem alert_round_trip_witness :
    Alert.from_dict (sampleAlert.to_dict 60) = some sampleAlert :=
  (alert_round_trip sampleAlert 60).1

/-- C6: the `resolve_alert` handler fails (400, the spec's `InvalidStateError`)
iff the alert's status is already `RESOLVED`; when it succeeds it sets the
status to `RESOLVED`, `resolved_at` to now, `resolved_by` to the actor, and
appends one history row with action `"resolved"`. -/
theorem resolve_alert_spec (alert : Alert) (uid : Int) (uname : String) (now : ℚ) :
    ((∃ e, resolve_alert alert uid uname now = Except.error e) ↔
      alert.status = AlertStatus.resolved) ∧
    (∀ a h, resolve_alert alert uid uname now = Except.ok (a, h) →
      a.status = AlertStatus.resolved ∧ a.resolved_at = some now ∧
      a.resolved_by = some uid ∧ a.updated_at = now ∧
      h.action = "resolved" ∧ h.alert_id = alert.id) := by
  rcases hs : alert.status <;>
    simp [resolve_alert, Alert.is_resolved, Alert.resolve, hs]

/-- Witness for C6: resolving the sample active alert at time 600 marks it
resolved with the right timestamp, and a second resolve on the result fails. -/
theorem resolve_alert_spec_witness :
    ((sampleAlert.resolve 7 600).status = AlertStatus.resolved ∧
     (sampleAlert.resolve 7 600).resolved_at = some 600) ∧
    (∃ e, resolve_alert (sampleAlert.resolve 7 600) 9 "carol" 900 = Except.error e) := by
  constructor
  · have h := (resolve_alert_spec sampleAlert 7 "alice" 600).2 (sampleAlert.resolve 7 600)
      { alert_id := 1
        action := "resolved"
        description := "Alert resolved by alice"
        created_by := some 7 } rfl
    exact ⟨h.1, h.2.1⟩
  · exact (resolve_alert_spec (sampleAlert.resolve 7 600) 9 "carol" 900).1.mpr rfl

/-- C2: the cooldown gate of `should_trigger` — a zero/unset
`cooldown_minutes` never suppresses; no prior alert never suppresses;
otherwise, with `M > 0` and `t` the creation time of the most recent alert,
the rule may fire iff the elapsed minutes `(now − t) / 60` are at least `M`
(boundary inclusive); and whenever the gate suppresses, `should_trigger` is
false. -/
theorem cooldown_gate_spec (rule : AlertRule) (now : ℚ) (ctx : ContextData) :
    (rule.cooldown_minutes = none ∨ rule.cooldown_minutes = some 0 →
        rule.cooldown_suppressed now = false) ∧
    (rule.alerts = [] → rule.cooldown_suppressed now = false) ∧
    (∀ M last_alert, rule.cooldown_minutes = some M → 0 < M →
        rule.get_last_alert = some last_alert →
        (rule.cooldown_suppressed now = false ↔
          (M : ℚ) ≤ (now - last_alert.created_at) / 60)) ∧
    (rule.cooldown_suppressed now = true → rule.should_trigger now ctx = false) := by
  refine ⟨?_, ?_, ?_, ?_⟩
  · rintro (h | h) <;> simp [AlertRule.cooldown_suppressed, h]
  · intro h
    rcases hc : rule.cooldown_minutes with _ | m <;>
      simp [AlertRule.cooldown_suppressed, AlertRule.get_last_alert, h, hc]
  · intro M last_alert hM hMpos hlast
    simp [AlertRule.cooldown_suppressed, hM, hlast, hMpos.ne', not_lt]
  · intro h
    simp [AlertRule.should_trigger, h]

/-- Witness for C2: the sample rule (cooldown 60 minutes, last alert created
at time 0) may fire at exactly 60 elapsed minutes (now = 3600 seconds,
boundary inclusive) and is suppressed at 30 elapsed minutes (now = 1800). -/
theorem cooldown_gate_spec_witness :
    cooldownRule.cooldown_suppressed 3600 = false ∧
    cooldownRule.cooldown_suppressed 1800 = true := by
  constructor
  · exact ((cooldown_gate_spec cooldownRule 3600 emptyContext).2.2.1 60 sampleAlert rfl
      (by norm_num) rfl).mpr (by norm_num [sampleAlert])
  · have h := (cooldown_gate_spec cooldownRule 1800 emptyContext).2.2.1 60 sampleAlert rfl
      (by norm_num) rfl
    have hlt : ¬ ((60 : ℚ) ≤ (1800 - sampleAlert.created_at) / 60) := by
      norm_num [sampleAlert]
    cases hb : cooldownRule.cooldown_suppressed 1800
    · exact absurd (h.mp hb) hlt
    · rfl

/-- C5: `health_check` condition evaluation under a supported operator
(`">"`, `"<"` or `"=="`, the operator key defaulting to `">"`) is the AND of
the present checks — `status` equality, and the metric value (context default
0) compared strictly against the threshold by the operator. -/
theorem evaluate_health_check_supported_iff (rule : AlertRule) (ctx : ContextData)
    (hop : rule.conditions.operator.getD ">" = ">" ∨
           rule.conditions.operator.getD ">" = "<" ∨
           rule.conditions.operator.getD ">" = "==") :
    rule.evaluate_health_check_conditions ctx = true ↔
      ((∀ s, rule.conditions.status = some s → ctx.status = some s) ∧
       (∀ t, rule.conditions.metric_threshold = some t →
         ((rule.conditions.operator.getD ">" = ">" → t < ctx.metric_value.getD 0) ∧
          (rule.conditions.operator.getD ">" = "<" → ctx.metric_value.getD 0 < t) ∧
          (rule.conditions.operator.getD ">" = "==" → ctx.metric_value.getD 0 = t)))) := by
  unfold AlertRule.evaluate_health_check_conditions
  rcases h1 : rule.conditions.status with _ | s <;>
    rcases h2 : rule.conditions.metric_threshold with _ | t <;>
      obtain hop | hop | hop := hop <;>
        simp [h1, h2, hop, Int.not_lt, Int.not_le]

/-- A `health_check` rule with `metric_threshold: 90, operator: ">"` (the
spec's worked example). -/
def strictGtRule : AlertRule :=
  { rule_type := "health_check"
    conditions :=
      { status := none
        failure_count := none
        duration_threshold := none
        metric_threshold := some 90
        operator := some ">" }
    cooldown_minutes := none
    is_active := true
    alerts := [] }

/-- A context with metric value 95. -/
def metric95Context : ContextData :=
  { status := none
    failure_count := none
    duration_seconds := none
    metric_value := some 95 }

/-- A context with metric value exactly 90. -/
def metric90Context : ContextData :=
  { status := none
    failure_count := none
    duration_seconds := none
    metric_value := some 90 }

/-- Witness for C5: the spec's worked example — threshold 90 with operator
`">"` — evaluates to true at metric value 95 and to false at metric value 90
(strict comparison). -/
theorem evaluate_health_check_supported_iff_witness :
    strictGtRule.evaluate_health_check_conditions metric95Context = true ∧
    strictGtRule.evaluate_health_check_conditions metric90Context ≠ true := by
  constructor
  · exact (evaluate_health_check_supported_iff strictGtRule metric95Context
      (Or.inl rfl)).mpr (by simp [strictGtRule, metric95Context])
  · intro hcon
    have h := (evaluate_health_check_supported_iff strictGtRule metric90Context
      (Or.inl rfl)).mp hcon
    have h90 := (h.2 90 rfl).1 rfl
    simp [metric90Context] at h90

end DataOps
